import Mathlib

/-!
Shallow embedding of the pvc-shrink-ray webhook (main.go) and proofs of the
specified properties.

Modelling conventions:
- `resource.Quantity` (an assumed-correct platform library) is modelled at its
  interface: a structure carrying the exact numeric value used by `Cmp`
  (exact numeric comparison) and the canonical `String()` form.
- JSON encoding/decoding is a platform service; the outcome of
  `json.Unmarshal(req.Object.Raw, &pvc)` is carried on the request as an
  `Except String PersistentVolumeClaim`, and the envelope decoder used by the
  handler is an explicit function parameter.  `json.Marshal` of the patch list
  (string-valued fields only) cannot fail in Go and is modelled as total.
- The one remote effect, the snapshot `Get`, is made explicit: `reviewPVC`
  returns, besides the admission response, the list of `(namespace, name)`
  lookups it performed, and `handleMutate` additionally reports how many times
  it invoked the decision engine.
-/

namespace PvcShrinkRay

/-- Interface model of `resource.Quantity`: `val` is the exact numeric value
(`Cmp` compares numerically), `str` is the canonical `String()` form. -/
structure Quantity where
  val : Int
  str : String
deriving DecidableEq

/-- `corev1.TypedLocalObjectReference` (the `dataSource` field). -/
structure TypedLocalObjectReference where
  apiGroup : Option String
  kind : String
  name : String
deriving DecidableEq

/-- `corev1.TypedObjectReference` (the `dataSourceRef` field); `namespace_`
models the optional `Namespace *string`. -/
structure TypedObjectReference where
  apiGroup : Option String
  kind : String
  name : String
  namespace_ : Option String
deriving DecidableEq

/-- `corev1.VolumeResourceRequirements`, restricted to the one entry the code
reads: `Requests[corev1.ResourceStorage]`, with its presence bit (`ok`). -/
structure VolumeResourceRequirements where
  requests : Option Quantity
deriving DecidableEq

/-- The fields of `corev1.PersistentVolumeClaimSpec` the code reads. -/
structure PersistentVolumeClaimSpec where
  dataSource : Option TypedLocalObjectReference
  dataSourceRef : Option TypedObjectReference
  resources : VolumeResourceRequirements
deriving DecidableEq

/-- The fields of `corev1.PersistentVolumeClaim` the code reads.  `labels`
models the Go map `Labels map[string]string`, `none` being the nil map. -/
structure PersistentVolumeClaim where
  name : String
  namespace_ : String
  labels : Option (List (String × String))
  spec : PersistentVolumeClaimSpec
deriving DecidableEq

/-- `snapshotv1.VolumeSnapshotStatus`: the optional `RestoreSize`. -/
structure VolumeSnapshotStatus where
  restoreSize : Option Quantity
deriving DecidableEq

/-- `snapshotv1.VolumeSnapshot`: the optional `Status`. -/
structure VolumeSnapshot where
  status : Option VolumeSnapshotStatus
deriving DecidableEq

/-- `metav1.GroupVersionKind`. -/
structure GroupVersionKind where
  group : String
  version : String
  kind : String
deriving DecidableEq

/-- `admissionv1.AdmissionRequest`: the fields the code reads.  `object` is the
outcome of `json.Unmarshal(req.Object.Raw, &pvc)` (platform JSON codec applied
to the raw bytes). -/
structure AdmissionRequest where
  uid : String
  kind : GroupVersionKind
  object : Except String PersistentVolumeClaim

/-- The `patch` struct of main.go (`Value` is always the quantity string). -/
structure Patch where
  op : String
  path : String
  value : String
deriving DecidableEq

/-- `admissionv1.AdmissionResponse`: the fields the code writes.  `patch`
holds the decoded content of the marshalled patch bytes; `resultMessage`
models `Result.Message`. -/
structure AdmissionResponse where
  uid : String := ""
  allowed : Bool
  resultMessage : Option String := none
  patch : Option (List Patch) := none
  patchType : Option String := none
deriving DecidableEq

/-- `admissionv1.AdmissionReview`: optional inner request and response. -/
structure AdmissionReview where
  request : Option AdmissionRequest
  response : Option AdmissionResponse := none

/-- The snapshot-lookup collaborator:
`client.SnapshotV1().VolumeSnapshots(ns).Get(ctx, name, ...)`. -/
def SnapClient : Type := String → String → Except String VolumeSnapshot

/-- `snapshotv1.GroupName`. -/
def snapshotGroupName : String := "snapshot.storage.k8s.io"

/-- The trigger label key. -/
def triggerLabel : String := "cdi.kubevirt.io/applyStorageProfile"

/-- Go map indexing `m[k]` for a `map[string]string`: the zero value `""`
when the key is absent. -/
def mapGet (m : List (String × String)) (k : String) : String :=
  match m.find? (fun p => p.1 == k) with
  | some p => p.2
  | none => ""

/-- Go map indexing through a possibly-nil map (`pvc.Labels[k]`). -/
def labelsGet (labels : Option (List (String × String))) (k : String) : String :=
  match labels with
  | some m => mapGet m k
  | none => ""

/-- Lines 64-67 of main.go: the snapshot namespace used for a `dataSourceRef`
match is the claim's own namespace unless the reference carries an explicit
non-empty namespace. -/
def refEffectiveNamespace (ref : TypedObjectReference) (claimNamespace : String) : String :=
  match ref.namespace_ with
  | some v => if v ≠ "" then v else claimNamespace
  | none => claimNamespace

/-- Lines 52-69 of main.go: compute `(snapshotName, snapshotNamespace)`.
The primary `dataSource` sets the pair when its kind is `VolumeSnapshot` and
its API group is exactly the snapshot group; the `dataSourceRef` is consulted
only when `snapshotName` is still `""`, and its explicit non-empty namespace
overrides the claim's own. -/
def resolveSnapshotRef (pvc : PersistentVolumeClaim) : String × String :=
  let fromDataSource : String × String :=
    match pvc.spec.dataSource with
    | some ds =>
        if ds.kind = "VolumeSnapshot" ∧ ds.apiGroup = some snapshotGroupName then
          (ds.name, pvc.namespace_)
        else ("", "")
    | none => ("", "")
  if fromDataSource.1 ≠ "" then
    fromDataSource
  else
    match pvc.spec.dataSourceRef with
    | some ref =>
        if ref.kind = "VolumeSnapshot" ∧ ref.apiGroup = some snapshotGroupName then
          (ref.name, refEffectiveNamespace ref pvc.namespace_)
        else fromDataSource
    | none => fromDataSource

/-- Lines 89-92 of main.go: `snapshot.Status != nil && Status.RestoreSize != nil`. -/
def restoreSizeOf (snapshot : VolumeSnapshot) : Option Quantity :=
  match snapshot.status with
  | some st => st.restoreSize
  | none => none

/-- `reviewPVC` (main.go lines 30-148).  The second component is the list of
snapshot `Get` calls performed, in order (the explicit effect log). -/
def reviewPVC (req : AdmissionRequest) (client : SnapClient) :
    AdmissionResponse × List (String × String) :=
  match req.object with
  | Except.error e => ({ allowed := true, resultMessage := some e }, [])
  | Except.ok pvc =>
    if pvc.labels = none ∨ labelsGet pvc.labels triggerLabel ≠ "true" then
      ({ allowed := true }, [])
    else
      if (resolveSnapshotRef pvc).1 = "" then
        ({ allowed := true }, [])
      else
        match client (resolveSnapshotRef pvc).2 (resolveSnapshotRef pvc).1 with
        | Except.error e =>
            ({ allowed := true, resultMessage := some e },
             [((resolveSnapshotRef pvc).2, (resolveSnapshotRef pvc).1)])
        | Except.ok snapshot =>
          match restoreSizeOf snapshot with
          | none =>
              ({ allowed := true }, [((resolveSnapshotRef pvc).2, (resolveSnapshotRef pvc).1)])
          | some snapshotRestoreSize =>
            match pvc.spec.resources.requests with
            | none =>
                ({ allowed := true }, [((resolveSnapshotRef pvc).2, (resolveSnapshotRef pvc).1)])
            | some pvcSize =>
              if pvcSize.val > snapshotRestoreSize.val then
                ({ allowed := true,
                   patch := some [{ op := "replace",
                                    path := "/spec/resources/requests/storage",
                                    value := snapshotRestoreSize.str }],
                   patchType := some "JSONPatch" },
                 [((resolveSnapshotRef pvc).2, (resolveSnapshotRef pvc).1)])
              else
                ({ allowed := true }, [((resolveSnapshotRef pvc).2, (resolveSnapshotRef pvc).1)])

/-- The inbound HTTP request as the handler observes it: method, Content-Type
header, and the underlying body stream (`Except.error` when reading fails). -/
structure HttpRequest where
  method : String
  contentType : String
  body : Except String (List Nat)

/-- What the handler writes back: a plain-text `http.Error` with a 4xx status,
or the HTTP-200 serialized admission-review envelope. -/
inductive HttpReply where
  | httpError (status : Nat) (message : String)
  | reviewReply (review : AdmissionReview)

/-- The HTTP status carried by a reply (a serialized envelope is written with
the implicit 200). -/
def HttpReply.status : HttpReply → Nat
  | .httpError s _ => s
  | .reviewReply _ => 200

/-- The handler's observable outcome: the reply, the number of times the
decision engine (`reviewPVC`) ran, and the snapshot lookups performed. -/
structure HandlerResult where
  reply : HttpReply
  engineCalls : Nat
  lookups : List (String × String)

/-- `handleMutate` (main.go lines 150-208).  `decodeReview` is the platform
JSON codec for the envelope, applied to the body bytes read through
`io.LimitReader(r.Body, 1<<20)`. -/
def handleMutate (decodeReview : List Nat → Except String AdmissionReview)
    (r : HttpRequest) (client : SnapClient) : HandlerResult :=
  if r.method ≠ "POST" then
    ⟨.httpError 405 "invalid request method", 0, []⟩
  else if r.contentType ≠ "application/json" then
    ⟨.httpError 415 "invalid content type, expected application/json", 0, []⟩
  else
    match r.body with
    | Except.error _ =>
        ⟨.httpError 400 "could not read request body", 0, []⟩
    | Except.ok content =>
      if (content.take (1 <<< 20)).length = 0 then
        ⟨.httpError 400 "empty request body", 0, []⟩
      else
        match decodeReview (content.take (1 <<< 20)) with
        | Except.error e =>
            ⟨.httpError 400 ("failed to unmarshal admission review: " ++ e), 0, []⟩
        | Except.ok admissionReview =>
          match admissionReview.request with
          | none =>
              ⟨.httpError 400 "admission review request is missing", 0, []⟩
          | some innerReq =>
            if innerReq.kind.group ≠ "" ∨ innerReq.kind.kind ≠ "PersistentVolumeClaim" then
              ⟨.reviewReply { admissionReview with response := some { allowed := true } },
               0, []⟩
            else
              ⟨.reviewReply { admissionReview with
                              response := some { (reviewPVC innerReq client).1 with
                                                 uid := innerReq.uid } },
               1, (reviewPVC innerReq client).2⟩

/-! ## Concrete inputs used by counterexamples and witnesses -/

/-- An envelope whose inner request has kind `Pod` (unsupported) and UID
`"test-uid"`. -/
def c3review : AdmissionReview :=
  { request := some { uid := "test-uid",
                      kind := { group := "", version := "v1", kind := "Pod" },
                      object := Except.error "ignored" } }

/-- A decoder returning `c3review` for every body. -/
def c3decode : List Nat → Except String AdmissionReview :=
  fun _ => Except.ok c3review

/-- A client that fails every lookup. -/
def c3client : SnapClient := fun _ _ => Except.error "no cluster"

/-- A well-formed POST request with a non-empty body. -/
def c3httpRequest : HttpRequest :=
  { method := "POST", contentType := "application/json", body := Except.ok [123] }

/-- A claim whose primary `dataSource` passes the kind/group test but has an
empty name, while its `dataSourceRef` names `ref-snap` in `other-ns`. -/
def c4pvc : PersistentVolumeClaim :=
  { name := "my-pvc", namespace_ := "pvc-ns",
    labels := some [(triggerLabel, "true")],
    spec := { dataSource := some { apiGroup := some snapshotGroupName,
                                   kind := "VolumeSnapshot", name := "" },
              dataSourceRef := some { apiGroup := some snapshotGroupName,
                                      kind := "VolumeSnapshot", name := "ref-snap",
                                      namespace_ := some "other-ns" },
              resources := { requests := some { val := 21, str := "21Gi" } } } }

/-- The admission request wrapping `c4pvc`. -/
def c4req : AdmissionRequest :=
  { uid := "u1",
    kind := { group := "", version := "v1", kind := "PersistentVolumeClaim" },
    object := Except.ok c4pvc }

/-- A client returning a snapshot with restore size `20Gi` for every lookup. -/
def c4client : SnapClient :=
  fun _ _ => Except.ok { status := some { restoreSize := some { val := 20, str := "20Gi" } } }

/-- The supported kind. -/
def pvcGVK : GroupVersionKind :=
  { group := "", version := "v1", kind := "PersistentVolumeClaim" }

/-- A snapshot with restore size `20Gi`. -/
def c1snap : VolumeSnapshot :=
  { status := some { restoreSize := some { val := 20, str := "20Gi" } } }

/-- A client serving `c1snap` at `test-ns/my-snapshot` only. -/
def c1client : SnapClient := fun ns n =>
  if ns = "test-ns" ∧ n = "my-snapshot" then Except.ok c1snap
  else Except.error "not found"

/-- A trigger-labelled claim requesting `21Gi` from snapshot `my-snapshot`. -/
def c1pvc : PersistentVolumeClaim :=
  { name := "my-pvc", namespace_ := "test-ns",
    labels := some [(triggerLabel, "true")],
    spec := { dataSource := some { apiGroup := some snapshotGroupName,
                                   kind := "VolumeSnapshot", name := "my-snapshot" },
              dataSourceRef := none,
              resources := { requests := some { val := 21, str := "21Gi" } } } }

/-- The same claim already corrected to `20Gi`. -/
def c1pvcEq : PersistentVolumeClaim :=
  { name := "my-pvc", namespace_ := "test-ns",
    labels := some [(triggerLabel, "true")],
    spec := { dataSource := some { apiGroup := some snapshotGroupName,
                                   kind := "VolumeSnapshot", name := "my-snapshot" },
              dataSourceRef := none,
              resources := { requests := some { val := 20, str := "20Gi" } } } }

/-- Admission request wrapping `c1pvc`. -/
def c1req : AdmissionRequest :=
  { uid := "test-uid", kind := pvcGVK, object := Except.ok c1pvc }

/-- Admission request wrapping `c1pvcEq`. -/
def c1reqEq : AdmissionRequest :=
  { uid := "test-uid", kind := pvcGVK, object := Except.ok c1pvcEq }

/-- The reference variant carried by `c4pvc`. -/
def c4ref : TypedObjectReference :=
  { apiGroup := some snapshotGroupName, kind := "VolumeSnapshot",
    name := "ref-snap", namespace_ := some "other-ns" }

/-- The empty-named primary reference carried by `c4pvc`. -/
def c4dsEmpty : TypedLocalObjectReference :=
  { apiGroup := some snapshotGroupName, kind := "VolumeSnapshot", name := "" }

/-- A matching primary reference with a non-empty name. -/
def c4dsPrimary : TypedLocalObjectReference :=
  { apiGroup := some snapshotGroupName, kind := "VolumeSnapshot", name := "ds-snap" }

/-- A claim with both a matching non-empty primary and a reference variant. -/
def c4pvcPrimary : PersistentVolumeClaim :=
  { name := "p", namespace_ := "pvc-ns",
    labels := some [(triggerLabel, "true")],
    spec := { dataSource := some c4dsPrimary,
              dataSourceRef := some c4ref,
              resources := { requests := none } } }

/-- A claim with a nil label map. -/
def c5pvc : PersistentVolumeClaim :=
  { name := "n5", namespace_ := "ns5", labels := none,
    spec := { dataSource := none, dataSourceRef := none,
              resources := { requests := some { val := 100, str := "100Gi" } } } }

/-- Admission request wrapping `c5pvc`. -/
def c5req : AdmissionRequest :=
  { uid := "u5", kind := pvcGVK, object := Except.ok c5pvc }

/-- A client that would serve a snapshot were it ever asked. -/
def c5client : SnapClient :=
  fun _ _ => Except.ok { status := some { restoreSize := some { val := 20, str := "20Gi" } } }

/-- An admission request whose raw claim bytes do not decode. -/
def c6reqBad : AdmissionRequest :=
  { uid := "u6", kind := pvcGVK, object := Except.error "cannot unmarshal" }

/-- A client failing every fetch. -/
def c6client : SnapClient := fun _ _ => Except.error "snapshot not found"

/-- A decoder failing on every body. -/
def c7decodeErr : List Nat → Except String AdmissionReview :=
  fun _ => Except.error "invalid character"

/-- An envelope with no inner request. -/
def c7reviewNone : AdmissionReview := { request := none }

/-- A decoder producing `c7reviewNone` for every body. -/
def c7decodeNone : List Nat → Except String AdmissionReview :=
  fun _ => Except.ok c7reviewNone

/-- A client that is never reached. -/
def c7client : SnapClient := fun _ _ => Except.error "unused"

/-- A trigger-labelled claim whose only data source has the wrong kind and no
API group. -/
def c9pvc : PersistentVolumeClaim :=
  { name := "n9", namespace_ := "ns9",
    labels := some [(triggerLabel, "true")],
    spec := { dataSource := some { apiGroup := none,
                                   kind := "PersistentVolumeClaim", name := "other" },
              dataSourceRef := none,
              resources := { requests := some { val := 5, str := "5Gi" } } } }

/-- Admission request wrapping `c9pvc`. -/
def c9req : AdmissionRequest :=
  { uid := "u9", kind := pvcGVK, object := Except.ok c9pvc }

/-- A client whose snapshot has no status. -/
def c9client : SnapClient := fun _ _ => Except.ok { status := none }

/-! ## Helper lemmas -/

lemma trigger_cond_false (pvc : PersistentVolumeClaim)
    (hlab : labelsGet pvc.labels triggerLabel = "true") :
    ¬(pvc.labels = none ∨ labelsGet pvc.labels triggerLabel ≠ "true") := by
  rintro (hn | hne)
  · rw [hn] at hlab
    exact absurd hlab (by decide)
  · exact hne hlab

lemma resolveSnapshotRef_primary (pvc : PersistentVolumeClaim)
    (ds : TypedLocalObjectReference)
    (hd : pvc.spec.dataSource = some ds)
    (hk : ds.kind = "VolumeSnapshot")
    (hg : ds.apiGroup = some snapshotGroupName)
    (hn : ds.name ≠ "") :
    resolveSnapshotRef pvc = (ds.name, pvc.namespace_) := by
  unfold resolveSnapshotRef
  rw [hd]
  simp [hk, hg, hn]

lemma resolveSnapshotRef_ref (pvc : PersistentVolumeClaim)
    (ref : TypedObjectReference)
    (hprim : pvc.spec.dataSource = none ∨
      ∃ ds, pvc.spec.dataSource = some ds ∧
        ¬(ds.kind = "VolumeSnapshot" ∧ ds.apiGroup = some snapshotGroupName ∧ ds.name ≠ ""))
    (hr : pvc.spec.dataSourceRef = some ref)
    (hk : ref.kind = "VolumeSnapshot")
    (hg : ref.apiGroup = some snapshotGroupName) :
    resolveSnapshotRef pvc = (ref.name, refEffectiveNamespace ref pvc.namespace_) := by
  rcases hprim with hnone | ⟨ds, hds, hnot⟩
  · unfold resolveSnapshotRef
    rw [hnone, hr]
    simp [hk, hg]
  · by_cases hcond : ds.kind = "VolumeSnapshot" ∧ ds.apiGroup = some snapshotGroupName
    · have hname : ds.name = "" := by
        by_contra hne
        exact hnot ⟨hcond.1, hcond.2, hne⟩
      unfold resolveSnapshotRef
      rw [hds, hr]
      simp [hcond.1, hcond.2, hname, hk, hg]
    · unfold resolveSnapshotRef
      rw [hds, hr]
      simp [hcond, hk, hg]

lemma resolveSnapshotRef_none (pvc : PersistentVolumeClaim)
    (hds : ∀ ds, pvc.spec.dataSource = some ds →
      ¬(ds.kind = "VolumeSnapshot" ∧ ds.apiGroup = some snapshotGroupName))
    (href : ∀ ref, pvc.spec.dataSourceRef = some ref →
      ¬(ref.kind = "VolumeSnapshot" ∧ ref.apiGroup = some snapshotGroupName)) :
    resolveSnapshotRef pvc = ("", "") := by
  unfold resolveSnapshotRef
  cases hd : pvc.spec.dataSource with
  | none =>
    cases hr : pvc.spec.dataSourceRef with
    | none => simp
    | some ref => simp [href ref hr]
  | some ds =>
    cases hr : pvc.spec.dataSourceRef with
    | none => simp [hds ds hd]
    | some ref => simp [hds ds hd, href ref hr]

/-! ## Claims -/

/-- Claim C1: for a decodable, trigger-labelled claim whose snapshot reference
resolves and whose fetched snapshot has restore size `rs`, a requested storage
quantity strictly greater than `rs` yields an allowed verdict carrying exactly
one patch instruction replacing `/spec/resources/requests/storage` with the
canonical string of `rs`; a requested quantity at most `rs` (in particular one
already equal to it) yields an allowed verdict with no patch, so the decision
is a fixed point on corrected claims. -/
theorem c1_oversize_patched (req : AdmissionRequest) (client : SnapClient)
    (pvc : PersistentVolumeClaim) (name ns : String) (snapshot : VolumeSnapshot)
    (rs pvcSize : Quantity)
    (hobj : req.object = Except.ok pvc)
    (hlab : labelsGet pvc.labels triggerLabel = "true")
    (hres : resolveSnapshotRef pvc = (name, ns))
    (hname : name ≠ "")
    (hcli : client ns name = Except.ok snapshot)
    (hsize : restoreSizeOf snapshot = some rs)
    (hreq : pvc.spec.resources.requests = some pvcSize) :
    (pvcSize.val > rs.val →
      reviewPVC req client =
        ({ allowed := true,
           patch := some [{ op := "replace",
                            path := "/spec/resources/requests/storage",
                            value := rs.str }],
           patchType := some "JSONPatch" }, [(ns, name)])) ∧
    (pvcSize.val ≤ rs.val →
      reviewPVC req client = ({ allowed := true }, [(ns, name)])) := by
  have hcond := trigger_cond_false pvc hlab
  constructor
  · intro hgt
    simp only [reviewPVC, hobj, hres, hcli, hsize, hreq]
    rw [if_neg hcond, if_neg hname, if_pos hgt]
  · intro hle
    simp only [reviewPVC, hobj, hres, hcli, hsize, hreq]
    rw [if_neg hcond, if_neg hname, if_neg (not_lt.mpr hle)]

/-- Claim C5: a decodable claim whose label map is absent or whose trigger
label value is not exactly `"true"` gets allow-with-no-patch and no snapshot
lookup, regardless of the client, data sources or sizes. -/
theorem c5_untriggered_skipped (req : AdmissionRequest) (client : SnapClient)
    (pvc : PersistentVolumeClaim)
    (hobj : req.object = Except.ok pvc)
    (hlab : pvc.labels = none ∨ labelsGet pvc.labels triggerLabel ≠ "true") :
    reviewPVC req client = ({ allowed := true }, []) := by
  simp only [reviewPVC, hobj]
  rw [if_pos hlab]

/-- Claim C6: internal failures are fail-open with a diagnostic — a decode
error on the claim, or any error from the snapshot fetch, yields an allowed
verdict with no patch carrying the error text as the response message. -/
theorem c6_fail_open_diagnostic :
    (∀ (req : AdmissionRequest) (client : SnapClient) (e : String),
      req.object = Except.error e →
      reviewPVC req client = ({ allowed := true, resultMessage := some e }, [])) ∧
    (∀ (req : AdmissionRequest) (client : SnapClient) (pvc : PersistentVolumeClaim)
      (name ns e : String),
      req.object = Except.ok pvc →
      labelsGet pvc.labels triggerLabel = "true" →
      resolveSnapshotRef pvc = (name, ns) →
      name ≠ "" →
      client ns name = Except.error e →
      reviewPVC req client =
        ({ allowed := true, resultMessage := some e }, [(ns, name)])) := by
  constructor
  · intro req client e hobj
    simp only [reviewPVC, hobj]
  · intro req client pvc name ns e hobj hlab hres hname hcli
    have hcond := trigger_cond_false pvc hlab
    simp only [reviewPVC, hobj, hres, hcli]
    rw [if_neg hcond, if_neg hname]

/-- Claim C9: a decodable, trigger-labelled claim whose snapshot reference
does not resolve — both data-source fields absent, or present with a kind
other than `VolumeSnapshot` or without the exact snapshot API group — gets
allow-with-no-patch and the snapshot lookup collaborator is never called. -/
theorem c9_unresolvable_no_lookup (req : AdmissionRequest) (client : SnapClient)
    (pvc : PersistentVolumeClaim)
    (hobj : req.object = Except.ok pvc)
    (hlab : labelsGet pvc.labels triggerLabel = "true")
    (hds : ∀ ds, pvc.spec.dataSource = some ds →
      ¬(ds.kind = "VolumeSnapshot" ∧ ds.apiGroup = some snapshotGroupName))
    (href : ∀ ref, pvc.spec.dataSourceRef = some ref →
      ¬(ref.kind = "VolumeSnapshot" ∧ ref.apiGroup = some snapshotGroupName)) :
    reviewPVC req client = ({ allowed := true }, []) := by
  have hcond := trigger_cond_false pvc hlab
  have hres := resolveSnapshotRef_none pvc hds href
  simp only [reviewPVC, hobj, hres]
  rw [if_neg hcond, if_pos trivial]

lemma reviewPVC_allowed (req : AdmissionRequest) (client : SnapClient) :
    ((reviewPVC req client).1).allowed = true := by
  unfold reviewPVC
  cases hobj : req.object with
  | error e => rfl
  | ok pvc =>
    repeat' split
    all_goals rfl

/-- Claim C2: on every branch of `reviewPVC`, and on the kind-mismatch branch
of `handleMutate`, the admission response has `allowed = true`; no branch ever
produces a denial. -/
theorem c2_never_denies :
    (∀ (req : AdmissionRequest) (client : SnapClient),
      ((reviewPVC req client).1).allowed = true) ∧
    (∀ (decodeReview : List Nat → Except String AdmissionReview)
       (r : HttpRequest) (client : SnapClient) (ar : AdmissionReview),
      (handleMutate decodeReview r client).reply = HttpReply.reviewReply ar →
      ∃ resp, ar.response = some resp ∧ resp.allowed = true) := by
  constructor
  · exact reviewPVC_allowed
  · intro decodeReview r client ar h
    unfold handleMutate at h
    repeat' split at h
    any_goals cases h
    · exact ⟨_, rfl, rfl⟩
    · exact ⟨_, rfl, reviewPVC_allowed _ _⟩

/-- Claim C7: `handleMutate` checks transport preconditions in order and
short-circuits before the decision engine runs: non-POST yields 405, a
Content-Type other than `application/json` yields 415, and an unreadable,
empty, or non-decodable body or a missing inner request yields 400; in each
case the decision engine is never invoked (`engineCalls = 0`) and no snapshot
lookup happens. -/
theorem c7_transport_short_circuits
    (decodeReview : List Nat → Except String AdmissionReview)
    (r : HttpRequest) (client : SnapClient) :
    (r.method ≠ "POST" →
      handleMutate decodeReview r client =
        ⟨.httpError 405 "invalid request method", 0, []⟩) ∧
    (r.method = "POST" → r.contentType ≠ "application/json" →
      handleMutate decodeReview r client =
        ⟨.httpError 415 "invalid content type, expected application/json", 0, []⟩) ∧
    (∀ e, r.method = "POST" → r.contentType = "application/json" →
      r.body = Except.error e →
      handleMutate decodeReview r client =
        ⟨.httpError 400 "could not read request body", 0, []⟩) ∧
    (∀ content, r.method = "POST" → r.contentType = "application/json" →
      r.body = Except.ok content →
      (content.take (1 <<< 20)).length = 0 →
      handleMutate decodeReview r client =
        ⟨.httpError 400 "empty request body", 0, []⟩) ∧
    (∀ content e, r.method = "POST" → r.contentType = "application/json" →
      r.body = Except.ok content →
      (content.take (1 <<< 20)).length ≠ 0 →
      decodeReview (content.take (1 <<< 20)) = Except.error e →
      handleMutate decodeReview r client =
        ⟨.httpError 400 ("failed to unmarshal admission review: " ++ e), 0, []⟩) ∧
    (∀ content ar, r.method = "POST" → r.contentType = "application/json" →
      r.body = Except.ok content →
      (content.take (1 <<< 20)).length ≠ 0 →
      decodeReview (content.take (1 <<< 20)) = Except.ok ar →
      ar.request = none →
      handleMutate decodeReview r client =
        ⟨.httpError 400 "admission review request is missing", 0, []⟩) := by
  refine ⟨?_, ?_, ?_, ?_, ?_, ?_⟩
  · intro hm
    unfold handleMutate
    rw [if_pos hm]
  · intro hm hct
    unfold handleMutate
    rw [if_neg (not_not_intro hm), if_pos hct]
  · intro e hm hct hbody
    simp only [handleMutate, hbody]
    rw [if_neg (not_not_intro hm), if_neg (not_not_intro hct)]
  · intro content hm hct hbody hlen
    simp only [handleMutate, hbody]
    rw [if_neg (not_not_intro hm), if_neg (not_not_intro hct), if_pos hlen]
  · intro content e hm hct hbody hlen hdec
    simp only [handleMutate, hbody, hdec]
    rw [if_neg (not_not_intro hm), if_neg (not_not_intro hct), if_neg hlen]
  · intro content ar hm hct hbody hlen hdec hreq
    simp only [handleMutate, hbody, hdec, hreq]
    rw [if_neg (not_not_intro hm), if_neg (not_not_intro hct), if_neg hlen]

/-- Claim C8: a well-formed envelope whose inner request's kind is not exactly
(empty group, `PersistentVolumeClaim`) is answered with a serialized
allow-with-no-patch envelope carried on HTTP 200, with the decision engine
never invoked and no snapshot lookup performed. -/
theorem c8_unsupported_kind_noop
    (decodeReview : List Nat → Except String AdmissionReview)
    (r : HttpRequest) (client : SnapClient) (content : List Nat)
    (ar : AdmissionReview) (innerReq : AdmissionRequest)
    (hm : r.method = "POST") (hct : r.contentType = "application/json")
    (hbody : r.body = Except.ok content)
    (hlen : (content.take (1 <<< 20)).length ≠ 0)
    (hdec : decodeReview (content.take (1 <<< 20)) = Except.ok ar)
    (hreq : ar.request = some innerReq)
    (hkind : innerReq.kind.group ≠ "" ∨ innerReq.kind.kind ≠ "PersistentVolumeClaim") :
    handleMutate decodeReview r client =
      ⟨.reviewReply { ar with response := some { allowed := true } }, 0, []⟩ ∧
    (handleMutate decodeReview r client).reply.status = 200 := by
  have h : handleMutate decodeReview r client =
      ⟨.reviewReply { ar with response := some { allowed := true } }, 0, []⟩ := by
    simp only [handleMutate, hbody, hdec, hreq]
    rw [if_neg (not_not_intro hm), if_neg (not_not_intro hct), if_neg hlen, if_pos hkind]
  exact ⟨h, by rw [h]; rfl⟩

/-- Claim C3 as stated is false: on the unsupported-kind branch the handler
writes a fresh allow response without copying the request UID, so the reply
carries an empty UID while the inbound request's UID is `"test-uid"`. -/
theorem c3_counterexample :
    (handleMutate c3decode c3httpRequest c3client).reply =
      HttpReply.reviewReply { c3review with response := some { allowed := true } } ∧
    ({ allowed := true } : AdmissionResponse).uid = "" ∧
    (c3review.request.map AdmissionRequest.uid) = some "test-uid" ∧
    ("" : String) ≠ "test-uid" := by
  refine ⟨rfl, rfl, rfl, by decide⟩

/-- Claim C3 (amended): for every request passing transport validation whose
envelope carries an inner request, the serialized reply's response UID equals
the inbound request's UID when the inner kind is exactly (empty group,
`PersistentVolumeClaim`); on the unsupported-kind branch the response UID is
the empty string instead. -/
theorem c3_uid_correlation
    (decodeReview : List Nat → Except String AdmissionReview)
    (r : HttpRequest) (client : SnapClient) (content : List Nat)
    (ar : AdmissionReview) (innerReq : AdmissionRequest)
    (hm : r.method = "POST") (hct : r.contentType = "application/json")
    (hbody : r.body = Except.ok content)
    (hlen : (content.take (1 <<< 20)).length ≠ 0)
    (hdec : decodeReview (content.take (1 <<< 20)) = Except.ok ar)
    (hreq : ar.request = some innerReq) :
    ∃ resp, (handleMutate decodeReview r client).reply =
        HttpReply.reviewReply { ar with response := some resp } ∧
      resp.uid = (if innerReq.kind.group = "" ∧ innerReq.kind.kind = "PersistentVolumeClaim"
                  then innerReq.uid else "") := by
  by_cases hkind : innerReq.kind.group = "" ∧ innerReq.kind.kind = "PersistentVolumeClaim"
  · refine ⟨{ (reviewPVC innerReq client).1 with uid := innerReq.uid }, ?_, ?_⟩
    · simp only [handleMutate, hbody, hdec, hreq]
      rw [if_neg (not_not_intro hm), if_neg (not_not_intro hct), if_neg hlen,
        if_neg (by rintro (h | h) <;> [exact h hkind.1; exact h hkind.2])]
    · rw [if_pos hkind]
  · refine ⟨{ allowed := true }, ?_, ?_⟩
    · simp only [handleMutate, hbody, hdec, hreq]
      rw [if_neg (not_not_intro hm), if_neg (not_not_intro hct), if_neg hlen,
        if_pos (not_and_or.mp hkind)]
    · rw [if_neg hkind]

/-- Claim C4 as stated is false: when the primary `dataSource` matches the
kind/group test but carries an empty name, the code falls through to the
`dataSourceRef` — here resolution targets `("ref-snap", "other-ns")`, not the
primary's name with the claim's own namespace, and the lookup goes to the
reference's target. -/
theorem c4_counterexample :
    c4pvc.spec.dataSource =
      some { apiGroup := some snapshotGroupName, kind := "VolumeSnapshot", name := "" } ∧
    resolveSnapshotRef c4pvc = ("ref-snap", "other-ns") ∧
    resolveSnapshotRef c4pvc ≠ ("", c4pvc.namespace_) ∧
    (reviewPVC c4req c4client).2 = [("other-ns", "ref-snap")] := by decide

/-- Claim C4 (amended): snapshot reference resolution is first-match-wins
among references that pass the kind/group test and carry a non-empty name: a
matching primary `dataSource` with non-empty name determines the pair as (its
name, the claim's own namespace) even when a `dataSourceRef` is present;
otherwise a matching `dataSourceRef` determines the pair, its effective
namespace being its explicit namespace field when present and non-empty, else
the claim's own namespace. -/
theorem c4_first_match_wins (pvc : PersistentVolumeClaim)
    (ds : TypedLocalObjectReference) (ref : TypedObjectReference) :
    (pvc.spec.dataSource = some ds → ds.kind = "VolumeSnapshot" →
      ds.apiGroup = some snapshotGroupName → ds.name ≠ "" →
      resolveSnapshotRef pvc = (ds.name, pvc.namespace_)) ∧
    ((pvc.spec.dataSource = none ∨
        ∃ d, pvc.spec.dataSource = some d ∧
          ¬(d.kind = "VolumeSnapshot" ∧ d.apiGroup = some snapshotGroupName ∧
            d.name ≠ "")) →
      pvc.spec.dataSourceRef = some ref → ref.kind = "VolumeSnapshot" →
      ref.apiGroup = some snapshotGroupName →
      resolveSnapshotRef pvc = (ref.name, refEffectiveNamespace ref pvc.namespace_)) ∧
    (∀ v, ref.namespace_ = some v → v ≠ "" →
      refEffectiveNamespace ref pvc.namespace_ = v) ∧
    (ref.namespace_ = none ∨ ref.namespace_ = some "" →
      refEffectiveNamespace ref pvc.namespace_ = pvc.namespace_) := by
  refine ⟨fun hd hk hg hn => resolveSnapshotRef_primary pvc ds hd hk hg hn,
    fun hp hr hk hg => resolveSnapshotRef_ref pvc ref hp hr hk hg, ?_, ?_⟩
  · intro v hv hne
    simp [refEffectiveNamespace, hv, hne]
  · rintro (hv | hv) <;> simp [refEffectiveNamespace, hv]

/-- Claim C10: the handler's body read is capped at exactly `2 ^ 20` bytes by
truncation, not rejection — its outcome on any body equals its outcome on the
first `2 ^ 20` bytes of that body, so an oversized body is never refused for
its size as such but processed as the truncated prefix. -/
theorem c10_body_truncation
    (decodeReview : List Nat → Except String AdmissionReview)
    (method contentType : String) (content : List Nat) (client : SnapClient) :
    handleMutate decodeReview
      { method := method, contentType := contentType, body := Except.ok content } client =
    handleMutate decodeReview
      { method := method, contentType := contentType,
        body := Except.ok (content.take (2 ^ 20)) } client := by
  have htake : (content.take (2 ^ 20)).take (1 <<< 20) = content.take (1 <<< 20) := by
    rw [List.take_take]
    norm_num [Nat.shiftLeft_eq]
  simp only [handleMutate, htake]

/-! ## Witnesses -/

/-- Witness for C1: the `21Gi` claim over a `20Gi` snapshot is patched down to
`"20Gi"`; the already-corrected `20Gi` claim is left unpatched. -/
theorem c1_oversize_patched_witness :
    reviewPVC c1req c1client =
      ({ allowed := true,
         patch := some [{ op := "replace", path := "/spec/resources/requests/storage",
                          value := "20Gi" }],
         patchType := some "JSONPatch" }, [("test-ns", "my-snapshot")]) ∧
    reviewPVC c1reqEq c1client = ({ allowed := true }, [("test-ns", "my-snapshot")]) :=
  ⟨(c1_oversize_patched c1req c1client c1pvc "my-snapshot" "test-ns" c1snap
      { val := 20, str := "20Gi" } { val := 21, str := "21Gi" }
      rfl rfl rfl (by decide) rfl rfl rfl).1 (by decide),
   (c1_oversize_patched c1reqEq c1client c1pvcEq "my-snapshot" "test-ns" c1snap
      { val := 20, str := "20Gi" } { val := 20, str := "20Gi" }
      rfl rfl rfl (by decide) rfl rfl rfl).2 (by decide)⟩

/-- Witness for C2: a concrete engine run is allowed, and the concrete
kind-mismatch reply carries an allowed response. -/
theorem c2_never_denies_witness :
    ((reviewPVC c1req c1client).1).allowed = true ∧
    ∃ resp, ({ c3review with response := some { allowed := true } } :
        AdmissionReview).response = some resp ∧ resp.allowed = true :=
  ⟨c2_never_denies.1 c1req c1client,
   c2_never_denies.2 c3decode c3httpRequest c3client
     { c3review with response := some { allowed := true } } rfl⟩

/-- Witness for C3 (amended): on the concrete unsupported-kind envelope the
reply's response UID is the empty string. -/
theorem c3_uid_correlation_witness :
    ∃ resp, (handleMutate c3decode c3httpRequest c3client).reply =
        HttpReply.reviewReply { c3review with response := some resp } ∧
      resp.uid = "" :=
  c3_uid_correlation c3decode c3httpRequest c3client [123] c3review
    { uid := "test-uid", kind := { group := "", version := "v1", kind := "Pod" },
      object := Except.error "ignored" }
    rfl rfl rfl (by decide) rfl rfl

/-- Witness for C4 (amended): the non-empty primary wins even with the
reference variant present; the empty-named primary defers to the reference
variant, whose explicit namespace `other-ns` is used. -/
theorem c4_first_match_wins_witness :
    resolveSnapshotRef c4pvcPrimary = ("ds-snap", "pvc-ns") ∧
    resolveSnapshotRef c4pvc = ("ref-snap", refEffectiveNamespace c4ref "pvc-ns") ∧
    refEffectiveNamespace c4ref "pvc-ns" = "other-ns" :=
  ⟨(c4_first_match_wins c4pvcPrimary c4dsPrimary c4ref).1 rfl rfl rfl (by decide),
   (c4_first_match_wins c4pvc c4dsPrimary c4ref).2.1
     (Or.inr ⟨c4dsEmpty, rfl, by decide⟩) rfl rfl rfl,
   (c4_first_match_wins c4pvc c4dsPrimary c4ref).2.2.1 "other-ns" rfl (by decide)⟩

/-- Witness for C5: the unlabelled claim is allowed unchanged with no lookup. -/
theorem c5_untriggered_skipped_witness :
    reviewPVC c5req c5client = ({ allowed := true }, []) :=
  c5_untriggered_skipped c5req c5client c5pvc rfl (Or.inl rfl)

/-- Witness for C6: the undecodable claim and the failed fetch both degrade to
allow-with-no-patch carrying the error text. -/
theorem c6_fail_open_diagnostic_witness :
    reviewPVC c6reqBad c6client =
      ({ allowed := true, resultMessage := some "cannot unmarshal" }, []) ∧
    reviewPVC c1req c6client =
      ({ allowed := true, resultMessage := some "snapshot not found" },
       [("test-ns", "my-snapshot")]) :=
  ⟨c6_fail_open_diagnostic.1 c6reqBad c6client "cannot unmarshal" rfl,
   c6_fail_open_diagnostic.2 c1req c6client c1pvc "my-snapshot" "test-ns"
     "snapshot not found" rfl rfl rfl (by decide) rfl⟩

/-- Witness for C7: concrete requests hitting each transport violation get the
documented status and never reach the decision engine. -/
theorem c7_transport_short_circuits_witness :
    handleMutate c7decodeErr
        { method := "GET", contentType := "application/json", body := Except.ok [1] }
        c7client = ⟨.httpError 405 "invalid request method", 0, []⟩ ∧
    handleMutate c7decodeErr
        { method := "POST", contentType := "text/plain", body := Except.ok [1] }
        c7client = ⟨.httpError 415 "invalid content type, expected application/json", 0, []⟩ ∧
    handleMutate c7decodeErr
        { method := "POST", contentType := "application/json", body := Except.error "read fail" }
        c7client = ⟨.httpError 400 "could not read request body", 0, []⟩ ∧
    handleMutate c7decodeErr
        { method := "POST", contentType := "application/json", body := Except.ok [] }
        c7client = ⟨.httpError 400 "empty request body", 0, []⟩ ∧
    handleMutate c7decodeErr
        { method := "POST", contentType := "application/json", body := Except.ok [1] }
        c7client = ⟨.httpError 400 "failed to unmarshal admission review: invalid character", 0, []⟩ ∧
    handleMutate c7decodeNone
        { method := "POST", contentType := "application/json", body := Except.ok [1] }
        c7client = ⟨.httpError 400 "admission review request is missing", 0, []⟩ :=
  ⟨(c7_transport_short_circuits c7decodeErr
      { method := "GET", contentType := "application/json", body := Except.ok [1] }
      c7client).1 (by decide),
   (c7_transport_short_circuits c7decodeErr
      { method := "POST", contentType := "text/plain", body := Except.ok [1] }
      c7client).2.1 rfl (by decide),
   (c7_transport_short_circuits c7decodeErr
      { method := "POST", contentType := "application/json", body := Except.error "read fail" }
      c7client).2.2.1 "read fail" rfl rfl rfl,
   (c7_transport_short_circuits c7decodeErr
      { method := "POST", contentType := "application/json", body := Except.ok [] }
      c7client).2.2.2.1 [] rfl rfl rfl (by decide),
   (c7_transport_short_circuits c7decodeErr
      { method := "POST", contentType := "application/json", body := Except.ok [1] }
      c7client).2.2.2.2.1 [1] "invalid character" rfl rfl rfl (by decide) rfl,
   (c7_transport_short_circuits c7decodeNone
      { method := "POST", contentType := "application/json", body := Except.ok [1] }
      c7client).2.2.2.2.2 [1] c7reviewNone rfl rfl rfl (by decide) rfl rfl⟩

/-- Witness for C8: the concrete `Pod`-kind envelope is answered with a 200
allow-with-no-patch reply and no engine or lookup call. -/
theorem c8_unsupported_kind_noop_witness :
    handleMutate c3decode c3httpRequest c3client =
      ⟨.reviewReply { c3review with response := some { allowed := true } }, 0, []⟩ ∧
    (handleMutate c3decode c3httpRequest c3client).reply.status = 200 :=
  c8_unsupported_kind_noop c3decode c3httpRequest c3client [123] c3review
    { uid := "test-uid", kind := { group := "", version := "v1", kind := "Pod" },
      object := Except.error "ignored" }
    rfl rfl rfl (by decide) rfl rfl (Or.inr (by decide))

/-- Witness for C9: the claim with a wrong-kind, group-less data source is
allowed unchanged with no lookup. -/
theorem c9_unresolvable_no_lookup_witness :
    reviewPVC c9req c9client = ({ allowed := true }, []) :=
  c9_unresolvable_no_lookup c9req c9client c9pvc rfl rfl
    (fun ds h => by cases Option.some.inj h; decide)
    (fun ref h => Option.noConfusion h)

end PvcShrinkRay
